import Mathlib

/-!
Verification of the search-router query-composition subsystem and the two
auxiliary pages of the repository (SearchRouter, ReportFieldsEditValuePage,
WebGenericPressable).  JavaScript strings are modelled as Lean strings
(lists of characters), JavaScript objects used as string-to-string records
are modelled as association lists in insertion order, and the reactive
component state is modelled as an explicit record threaded through pure
transition functions that mirror the source callbacks line by line.
External collaborators that are not part of the sources (the query-syntax
normalizer) are universally quantified function parameters; repository
functions that the sources import from modules outside the excerpt are
modelled from the specification and are marked as such in their doc
comments.
-/

/-- The non-breaking-space delimiter (U+00A0) appended after an accepted
suggestion, written as a character. -/
def nbsp : Char := '\u00A0'

/-- The non-breaking-space delimiter as a one-character string. -/
def nbspStr : String := String.mk [nbsp]

/-- JavaScript truthiness of an optional string: undefined and the empty
string are falsy, every other string is truthy. -/
def jsTruthyStr (v : Option String) : Bool :=
  match v with
  | none => false
  | some s => s ≠ ""

/-- JavaScript template interpolation of a possibly undefined string value:
interpolating undefined produces the literal text undefined. -/
def jsStr (v : Option String) : String :=
  match v with
  | none => "undefined"
  | some s => s

/-- A character is a line break (modelling the characters the repository
helper lineBreaksToSpaces normalizes). -/
def isLineBreak (c : Char) : Bool := c == '\n' || c == '\r'

/-- Modelled from the spec: StringUtils.lineBreaksToSpaces (from
libs/StringUtils, not under src/).  Spec section 4.1: normalize any
line-break characters in the incoming text to single spaces before
accepting them. -/
def lineBreaksToSpaces (s : String) : String :=
  String.mk (s.data.map (fun c => if isLineBreak c then ' ' else c))

/-- A string contains no line-break characters. -/
def noLineBreaks (s : String) : Bool :=
  s.data.all (fun c => ! isLineBreak c)

/-- A character that delimits complete query fragments: space, comma, and
the non-breaking-space delimiter. -/
def isFragmentDelim (c : Char) : Bool := c == ' ' || c == ',' || c == nbsp

/-- A character after which the buffer does not end mid-fragment: a
fragment delimiter or the key-value separator colon. -/
def isFragmentBoundary (c : Char) : Bool := isFragmentDelim c || c == ':'

/-- Boolean test that the first list is an initial segment of the second. -/
def listStartsWith : List Char → List Char → Bool
  | [], _ => true
  | _ :: _, [] => false
  | a :: as, b :: bs => a = b && listStartsWith as bs

/-- The substitution map: a JavaScript record from query-fragment keys to
canonical identifiers, modelled as an association list in insertion
order. -/
abbrev SubstMap := List (String × String)

/-- Whether a key is present in the substitution map. -/
def containsKey : SubstMap → String → Bool
  | [], _ => false
  | kv :: rest, k => kv.1 = k || containsKey rest k

/-- The value stored under a key, if any (the record read of JavaScript:
at most one binding per key is observable). -/
def lookupSubst : SubstMap → String → Option String
  | [], _ => none
  | kv :: rest, k => if kv.1 = k then some kv.2 else lookupSubst rest k

/-- The JavaScript object-spread update used throughout the source
(an expression spreading the old record and adding one binding): an
existing key keeps its position and gets the new value, a fresh key is
appended at the end. -/
def mergeSubst (m : SubstMap) (k v : String) : SubstMap :=
  if containsKey m k then m.map (fun kv => if kv.1 = k then (k, v) else kv)
  else m ++ [(k, v)]

/-- Structural equality of two substitution maps as JavaScript deepEqual
compares records: the same keys bound to the same values, irrespective of
insertion order. -/
def deepEqualSubst (a b : SubstMap) : Bool :=
  a.all (fun kv => lookupSubst b kv.1 = some kv.2) &&
    b.all (fun kv => lookupSubst a kv.1 = some kv.2)

/-- Replace every occurrence of a pattern in a character list, scanning
left to right, with explicit fuel so the function evaluates by kernel
reduction; the fuel argument is always supplied as the length of the
scanned list, which suffices because every step consumes at least one
character. -/
def replaceAllAux (pat repl : List Char) : Nat → List Char → List Char
  | _, [] => []
  | 0, cs => cs
  | fuel + 1, c :: rest =>
      if listStartsWith pat (c :: rest) then
        repl ++ replaceAllAux pat repl fuel ((c :: rest).drop pat.length)
      else
        c :: replaceAllAux pat repl fuel rest

/-- Replace every occurrence of a nonempty pattern in a string; an empty
pattern leaves the string unchanged. -/
def strReplaceAll (s pat repl : String) : String :=
  if pat.data.isEmpty then s
  else String.mk (replaceAllAux pat.data repl.data s.data.length s.data)

/-- Modelled from the spec: sanitizeSearchValue (from libs/SearchQueryUtils,
not under src/).  Spec section 4.2 requires fragments to be embeddable as
literal substrings of the query; a value containing a delimiter or quote
character is wrapped in double quotes, any other value is unchanged (the
end-to-end scenario in spec section 8 embeds a value without special
characters unchanged). -/
def sanitizeSearchValue (s : String) : String :=
  if s.data.any (fun c => isFragmentDelim c || c == '"') then
    String.mk ('"' :: s.data ++ ['"'])
  else s

/-- Modelled from the spec: getQueryWithSubstitutions (sibling module of the
router component, not under src/).  Spec section 4.2, applyTo: at
submission time, scan the literal text for every key present in the map
and replace it with its mapped identifier; keys not present in the text
are ignored. -/
def getQueryWithSubstitutions (text : String) (m : SubstMap) : String :=
  m.foldl (fun acc kv => strReplaceAll acc kv.1 kv.2) text

/-- Modelled from the spec: getUpdatedSubstitutionsMap (sibling module of
the router component, not under src/).  The spec describes no
keystroke-time modification of the substitution map (section 3: the map
only ever grows as suggestions are accepted or is replaced wholesale), so
the keystroke-time update pass is modelled as the identity on the map. -/
def getUpdatedSubstitutionsMap (_singleLineUserQuery : String) (m : SubstMap) : SubstMap := m

/-- Whether the last character of the existing text is a fragment boundary
(so that newly appended text does not run two fragments together). -/
def endsInFragmentBoundary (s : String) : Bool :=
  match s.data.getLast? with
  | some c => isFragmentBoundary c
  | none => false

/-- Modelled from the spec: getAutocompleteQueryWithComma (from
libs/SearchAutocompleteUtils, not under src/).  Spec section 4.1: if the
existing text ends mid-fragment and the caret-end append of a new
character that is not itself a fragment delimiter would run two fragments
together, a separating comma is inserted before the appended part; in
every other case - in particular a wholesale replacement, or a
programmatic append that already ends with the non-breaking-space
delimiter as produced by suggestion acceptance (spec section 8,
end-to-end scenario A accepts such a replacement unchanged) - the
incoming text is accepted as-is. -/
def getAutocompleteQueryWithComma (oldText newText : String) : String :=
  if oldText.data = [] then newText
  else if ¬ listStartsWith oldText.data newText.data then newText
  else
    match newText.data.drop oldText.data.length with
    | [] => newText
    | c :: rest =>
        if endsInFragmentBoundary oldText then newText
        else if isFragmentDelim c then newText
        else if (c :: rest).getLast? = some nbsp then newText
        else String.mk (oldText.data ++ ',' :: c :: rest)

/-- Modelled from the spec: getQueryWithoutAutocompletedPart (from
libs/SearchAutocompleteUtils, not under src/).  Spec section 4.4: trims
the already-typed partial fragment out of the buffer, i.e. removes the
maximal trailing run of characters that sits after the last fragment
boundary. -/
def getQueryWithoutAutocompletedPart (s : String) : String :=
  String.mk ((s.data.reverse.dropWhile (fun c => ! isFragmentBoundary c)).reverse)

/-- Modelled from the spec: the trim of JavaScript strings (whitespace
removed from both ends), used by the edit-value submission handler. -/
def jsTrim (s : String) : String :=
  String.mk (((s.data.dropWhile Char.isWhitespace).reverse.dropWhile
    Char.isWhitespace).reverse)

/-- The room types of contextual search suggestions used by the router
(values of the search data-type constants switched on by the source). -/
inductive RoomType where
  | chat
  | invoice
  | expense
  | trip
deriving DecidableEq, Repr

/-- The string form of an optional room type as interpolated into the
contextual query (interpolating undefined yields the text undefined). -/
def roomTypeStr (r : Option RoomType) : String :=
  match r with
  | some RoomType.chat => "chat"
  | some RoomType.invoice => "invoice"
  | some RoomType.expense => "expense"
  | some RoomType.trip => "trip"
  | none => "undefined"

/-- The discriminants of search query items
(SEARCH_ROUTER_ITEM_TYPE in the source constants). -/
inductive SearchItemType where
  | contextualSuggestion
  | autocompleteSuggestion
  | searchItem
deriving DecidableEq, Repr

/-- A search query item as consumed by the router callbacks: the subset of
SearchQueryItem fields the excerpted code reads.  Optional fields model
optional properties of the item object. -/
structure SearchQueryItem where
  searchQuery : Option String
  autocompleteID : Option String
  mapKey : Option String
  roomType : Option RoomType
  policyID : Option String
  searchItemType : SearchItemType
deriving DecidableEq, Repr

/-- Source lines 220-227: getContextualSearchAutocompleteKey.  Returns the
substitution key for invoice and chat rooms and nothing otherwise. -/
def getContextualSearchAutocompleteKey (item : SearchQueryItem) : Option String :=
  if item.roomType = some RoomType.invoice then
    some ("to:" ++ jsStr item.searchQuery)
  else if item.roomType = some RoomType.chat then
    some ("in:" ++ jsStr item.searchQuery)
  else none

/-- The user-friendly query key for a policy id.  The exact constant string
is defined outside the excerpted sources; no settled claim depends on its
value. -/
def policyIDKey : String := "policyID"

/-- Source lines 229-247: getContextualSearchQuery.  Builds the synthesized
query describing the contextual scope of the item. -/
def getContextualSearchQuery (item : SearchQueryItem) : String :=
  let baseQuery := "type:" ++ roomTypeStr item.roomType
  let additionalQuery :=
    match item.roomType with
    | some RoomType.expense | some RoomType.invoice =>
        let withPolicy := " " ++ policyIDKey ++ ":" ++ jsStr item.policyID
        if item.roomType = some RoomType.invoice ∧ jsTruthyStr item.autocompleteID then
          withPolicy ++ " to:" ++ sanitizeSearchValue (item.searchQuery.getD "")
        else withPolicy
    | _ => " in:" ++ sanitizeSearchValue (item.searchQuery.getD "")
  baseQuery ++ additionalQuery

/-- The component state of the search router owned by the excerpted
component: the visible text buffer, the last autocomplete query value, the
caret selection range, and the substitution map (source lines 264-269). -/
structure RouterState where
  textInputValue : String
  autocompleteQueryValue : String
  selection : Nat × Nat
  autocompleteSubstitutions : SubstMap
deriving DecidableEq, Repr

/-- The state on mount: empty buffer, empty autocomplete query, caret at
position zero, empty substitution map (source lines 265-269). -/
def initialRouterState : RouterState :=
  { textInputValue := ""
    autocompleteQueryValue := ""
    selection := (0, 0)
    autocompleteSubstitutions := [] }

/-- The outcome of a user action: the committed component state together
with the list of canonical queries handed to the navigation
collaborator. -/
structure PressOutcome where
  state : RouterState
  navEvents : List String
deriving DecidableEq, Repr

/-- Source line 268: the selection setter is the raw state setter produced
by useState; it stores the given range verbatim. -/
def setSelectionRaw (s : RouterState) (r : Nat × Nat) : RouterState :=
  { s with selection := r }

/-- Source lines 366-420, the successful path of onSearchQueryChange: the
incoming text has its line breaks normalized, the comma-insertion helper
is applied against the previous buffer, the buffer and the autocomplete
query value are both set to the result, and the substitution map is set to
the updated map only when it is not structurally equal to the previous one
(the deepEqual guard on lines 389-391).  The keystroke-time map update is
a parameter because it lives outside the excerpted sources.  The returned
flag records whether a substitution-map state transition was emitted. -/
def onSearchQueryChange (updSubs : String → SubstMap → SubstMap)
    (s : RouterState) (userQuery : String) : RouterState × Bool :=
  let singleLineUserQuery := lineBreaksToSpaces userQuery
  let updatedUserQuery := getAutocompleteQueryWithComma s.textInputValue singleLineUserQuery
  let updatedSubstitutionsMap := updSubs singleLineUserQuery s.autocompleteSubstitutions
  let changed := ¬ deepEqualSubst s.autocompleteSubstitutions updatedSubstitutionsMap
  ({ s with
      textInputValue := updatedUserQuery
      autocompleteQueryValue := updatedUserQuery
      autocompleteSubstitutions :=
        if changed then updatedSubstitutionsMap else s.autocompleteSubstitutions },
    changed)

/-- Source lines 422-439: submitSearch.  The raw query is rewritten through
the substitution map, then through the external query-syntax normalizer
(a parameter, with the empty string standing for the falsy no-usable-query
result); a falsy result is an early return, otherwise navigation fires
once with the canonical query and the buffer and autocomplete query value
are reset to empty.  No other state field is written by this callback. -/
def submitSearch (normalize : String → String) (s : RouterState)
    (queryString : String) : PressOutcome :=
  let queryWithSubstitutions := getQueryWithSubstitutions queryString s.autocompleteSubstitutions
  let updatedQuery := normalize queryWithSubstitutions
  if updatedQuery = "" then { state := s, navEvents := [] }
  else
    { state := { s with textInputValue := "", autocompleteQueryValue := "" }
      navEvents := [updatedQuery] }

/-- Source lines 441-448: setTextAndUpdateSelection replaces the buffer and
places the caret at the end of the new text. -/
def setTextAndUpdateSelection (s : RouterState) (text : String) : RouterState :=
  { s with textInputValue := text, selection := (text.length, text.length) }

/-- Source lines 450-584, the SearchQueryItem paths of onListItemPress.
An item without a truthy searchQuery is an early return (line 489).  A
contextual suggestion replaces the buffer with the synthesized contextual
query plus the non-breaking-space delimiter via onSearchQueryChange,
places the caret at the end of the replacement, and, when a key can be
derived and the item has a truthy identifier, overwrites the substitution
map with the object-spread of the map captured at render time (lines
498-518).  An autocomplete suggestion with a nonempty buffer trims the
partial fragment, appends the sanitized fragment plus delimiter, places
the caret at the end, and merges the identifier under the item map key
(lines 519-539).  Every other item is an immediate submission of its
query text (line 541). -/
def onSearchQueryItemPress (normalize : String → String)
    (updSubs : String → SubstMap → SubstMap)
    (s : RouterState) (item : SearchQueryItem) : PressOutcome :=
  if jsTruthyStr item.searchQuery = false then { state := s, navEvents := [] }
  else if item.searchItemType = SearchItemType.contextualSuggestion then
    let newSearchQuery := getContextualSearchQuery item ++ nbspStr
    let s1 := (onSearchQueryChange updSubs s newSearchQuery).1
    let s2 := { s1 with selection := (newSearchQuery.length, newSearchQuery.length) }
    let s3 :=
      match getContextualSearchAutocompleteKey item with
      | some autocompleteKey =>
          if jsTruthyStr item.autocompleteID then
            let merged := mergeSubst s.autocompleteSubstitutions autocompleteKey (item.autocompleteID.getD "")
            { s2 with autocompleteSubstitutions := merged }
          else s2
      | none => s2
    { state := s3, navEvents := [] }
  else if item.searchItemType = SearchItemType.autocompleteSuggestion ∧
      s.textInputValue ≠ "" then
    let trimmedUserSearchQuery := getQueryWithoutAutocompletedPart s.textInputValue
    let newSearchQuery :=
      trimmedUserSearchQuery ++ sanitizeSearchValue (item.searchQuery.getD "") ++ nbspStr
    let s1 := (onSearchQueryChange updSubs s newSearchQuery).1
    let s2 := { s1 with selection := (newSearchQuery.length, newSearchQuery.length) }
    let s3 :=
      if jsTruthyStr item.mapKey ∧ jsTruthyStr item.autocompleteID then
        let merged := mergeSubst s.autocompleteSubstitutions (item.mapKey.getD "") (item.autocompleteID.getD "")
        { s2 with autocompleteSubstitutions := merged }
      else s2
    { state := s3, navEvents := [] }
  else
    submitSearch normalize s (item.searchQuery.getD "")

/-- Source lines 626-635: the submit handler of the search input.  With no
focused list option the raw buffer is submitted; with a focused search
query item the item-press handler runs. -/
def onSubmitSearchInput (normalize : String → String)
    (updSubs : String → SubstMap → SubstMap)
    (s : RouterState) (focusedOption : Option SearchQueryItem) : PressOutcome :=
  match focusedOption with
  | none => submitSearch normalize s s.textInputValue
  | some item => onSearchQueryItemPress normalize updSubs s item

/-- Source lines 586-596: updateAutocompleteSubstitutions.  With a truthy
identifier and map key the substitution map is set to the object-spread
merge, unconditionally - there is no structural-equality guard on this
path.  The flag records whether a set-state call was emitted. -/
def updateAutocompleteSubstitutions (s : RouterState)
    (item : SearchQueryItem) : RouterState × Bool :=
  if ¬ (jsTruthyStr item.autocompleteID ∧ jsTruthyStr item.mapKey) then (s, false)
  else
    let merged := mergeSubst s.autocompleteSubstitutions (item.mapKey.getD "") (item.autocompleteID.getD "")
    ({ s with autocompleteSubstitutions := merged }, true)

/-- The shape of a diagnostic log record emitted at an error boundary: only
the presence of each context field matters for the claims (alert level,
action identifier, elapsed duration, input length). -/
structure LogEntry where
  isAlert : Bool
  hasActionId : Bool
  hasDuration : Bool
  hasInputLength : Bool
deriving DecidableEq, Repr

/-- The alert record of the keystroke boundary (source lines 409-415):
action identifier, error text, duration and input length. -/
def keystrokeAlertLog : LogEntry :=
  { isAlert := true, hasActionId := true, hasDuration := true, hasInputLength := true }

/-- The alert record of the list-item-press boundary (source lines
572-579): action identifier, error text, duration and item-kind context,
but no input length. -/
def listItemPressAlertLog : LogEntry :=
  { isAlert := true, hasActionId := true, hasDuration := true, hasInputLength := false }

/-- The alert record of the focus-and-scroll step (source lines 479-483):
action identifier and timestamp only - neither duration nor input
length. -/
def focusScrollAlertLog : LogEntry :=
  { isAlert := true, hasActionId := true, hasDuration := false, hasInputLength := false }

/-- Source lines 379-417: the catch boundary of onSearchQueryChange over an
arbitrary body outcome.  A thrown error is logged with the keystroke alert
record and re-thrown. -/
def onSearchQueryChangeBoundary (body : Except String Unit) :
    List LogEntry × Except String Unit :=
  match body with
  | Except.ok u => ([], Except.ok u)
  | Except.error e => ([keystrokeAlertLog], Except.error e)

/-- Source lines 487-581: the catch boundary of onListItemPress over an
arbitrary body outcome.  A thrown error is logged with the item-press
alert record and re-thrown. -/
def onListItemPressBoundary (body : Except String Unit) :
    List LogEntry × Except String Unit :=
  match body with
  | Except.ok u => ([], Except.ok u)
  | Except.error e => ([listItemPressAlertLog], Except.error e)

/-- Source lines 465-485: the catch boundary of setFocusAndScrollToRight
over an arbitrary body outcome.  A thrown error is logged with the
focus-scroll alert record and then swallowed - the catch block contains no
re-throw, so the boundary always resolves successfully. -/
def setFocusAndScrollToRightBoundary (body : Except String Unit) :
    List LogEntry × Except String Unit :=
  match body with
  | Except.ok u => ([], Except.ok u)
  | Except.error _ => ([focusScrollAlertLog], Except.ok ())

/-- The observable effects of submitting the edit-value form
(ReportFieldsEditValuePage): the rename call with its arguments when one
was issued, and the two unconditional side effects. -/
structure EditValueEffects where
  renameCall : Option (Nat × Option String)
  keyboardDismissed : Bool
  navigatedBack : Bool
deriving DecidableEq, Repr

/-- Source line 111: the current value name is the list value at the edited
index, defaulting to the empty string when the draft or the entry is
missing. -/
def currentValueName (listValues : Option (List String)) (valueIndex : Nat) : String :=
  match listValues with
  | none => ""
  | some l => (l.get? valueIndex).getD ""

/-- Source lines 119-129: editValue.  The submitted field value is trimmed
(optional chaining keeps an undefined field undefined); the rename action
runs exactly when the current name and the trimmed value differ under
strict JavaScript comparison; the keyboard is dismissed and navigation
goes back on every submission. -/
def editValue (currentName : String) (valueIndex : Nat)
    (newValueField : Option String) : EditValueEffects :=
  let valueName := newValueField.map jsTrim
  { renameCall :=
      if some currentName ≠ valueName then some (valueIndex, valueName) else none
    keyboardDismissed := true
    navigatedBack := true }

/-- Source line 7 of the pressable component: the accessible flag.  The
expression parses as a nullish coalescing of the prop with the test that
the prop is undefined, used as the condition of a conditional whose
branches are the literal true and the raw prop. -/
def webAccessible (accessibleProp : Option Bool) : Bool :=
  let coalesced : Bool :=
    match accessibleProp with
    | some b => b
    | none => true
  if coalesced then true else accessibleProp.getD true

/-- Source line 16 of the pressable component: the tabIndex forwarded to
the underlying pressable.  The nullish coalescing binds tighter than the
conditional, so a provided tabIndex is used only for its truthiness (a
number is truthy exactly when it is nonzero); when it is undefined the
accessibility flags decide. -/
def webTabIndex (tabIndexProp : Option Int) (accessibleProp : Option Bool)
    (focusableProp : Option Bool) : Int :=
  let focusable := focusableProp.getD true
  let accessible := webAccessible accessibleProp
  let coalesced : Bool :=
    match tabIndexProp with
    | some n => n ≠ 0
    | none => !accessible || !focusable
  if coalesced then -1 else 0

/-- The condition named by the claim about the pressable: the nullish
coalescing of the tabIndex prop with the negated accessibility flags,
evaluated for truthiness. -/
def tabIndexCoalesced (tabIndexProp : Option Int) (accessible focusable : Bool) : Bool :=
  match tabIndexProp with
  | some n => n ≠ 0
  | none => !accessible || !focusable

/-- The selection invariant of the spec data model: the range is ordered
and lies within the current text (the lower bound zero is automatic for
natural-number positions). -/
def selInv (s : RouterState) : Prop :=
  s.selection.1 ≤ s.selection.2 ∧ s.selection.2 ≤ s.textInputValue.length

/-- The identity normalizer, a concrete instance of the external
query-syntax normalizer used by witnesses and counterexamples. -/
def idNormalizer : String → String := fun q => q

/-- A concrete router state with a nonempty buffer and one substitution
entry. -/
def sC1 : RouterState :=
  { textInputValue := "foo"
    autocompleteQueryValue := "foo"
    selection := (3, 3)
    autocompleteSubstitutions := [("in:#general", "room_42")] }

/-- A concrete router state with a one-character buffer and no
substitutions. -/
def sC3 : RouterState :=
  { textInputValue := "x"
    autocompleteQueryValue := "x"
    selection := (1, 1)
    autocompleteSubstitutions := [] }

/-- A contextual suggestion item for an expense room: it carries an
identifier (the policy id) but its room type derives no substitution
key. -/
def itemC4x : SearchQueryItem :=
  { searchQuery := some "Ops"
    autocompleteID := some "policy_7"
    mapKey := none
    roomType := some RoomType.expense
    policyID := some "policy_7"
    searchItemType := SearchItemType.contextualSuggestion }

/-- A contextual suggestion item for a chat room carrying an
identifier. -/
def itemC4w : SearchQueryItem :=
  { searchQuery := some "general"
    autocompleteID := some "room_42"
    mapKey := none
    roomType := some RoomType.chat
    policyID := none
    searchItemType := SearchItemType.contextualSuggestion }

/-- The buffer of end-to-end scenario A of the spec. -/
def sC5 : RouterState :=
  { textInputValue := "type:chat in:"
    autocompleteQueryValue := "type:chat in:"
    selection := (13, 13)
    autocompleteSubstitutions := [] }

/-- The autocomplete suggestion item of end-to-end scenario A of the
spec. -/
def itemC5 : SearchQueryItem :=
  { searchQuery := some "#general"
    autocompleteID := some "room_42"
    mapKey := some "in:#general"
    roomType := none
    policyID := none
    searchItemType := SearchItemType.autocompleteSuggestion }

/-- A router state whose substitution map already binds k to v. -/
def sC7 : RouterState :=
  { textInputValue := ""
    autocompleteQueryValue := ""
    selection := (0, 0)
    autocompleteSubstitutions := [("k", "v")] }

/-- An item carrying exactly the key-value pair already present in sC7. -/
def itemC7 : SearchQueryItem :=
  { searchQuery := none
    autocompleteID := some "v"
    mapKey := some "k"
    roomType := none
    policyID := none
    searchItemType := SearchItemType.autocompleteSuggestion }

/-- A chat contextual item used to instantiate the selection-invariant
theorem. -/
def itemC6 : SearchQueryItem :=
  { searchQuery := some "general"
    autocompleteID := some "room_42"
    mapKey := none
    roomType := some RoomType.chat
    policyID := none
    searchItemType := SearchItemType.contextualSuggestion }

/-- An autocomplete item used to instantiate the selection-invariant
theorem. -/
def itemC6a : SearchQueryItem :=
  { searchQuery := some "#general"
    autocompleteID := some "room_42"
    mapKey := some "in:#general"
    roomType := none
    policyID := none
    searchItemType := SearchItemType.autocompleteSuggestion }

theorem string_mk_data (s : String) : String.mk s.data = s := rfl

theorem string_length_eq_data (s : String) : s.length = s.data.length := rfl

theorem string_append_data (a b : String) : (a ++ b).data = a.data ++ b.data := rfl

theorem string_data_eq_nil_iff (s : String) : s.data = [] ↔ s = "" := by
  constructor
  · intro h
    cases s with
    | mk d => cases h; rfl
  · intro h
    subst h
    rfl

theorem listStartsWith_self_append (a b : List Char) :
    listStartsWith a (a ++ b) = true := by
  induction a with
  | nil => rfl
  | cons c cs ih => simp [listStartsWith, ih]

theorem listStartsWith_decompose {a b : List Char}
    (h : listStartsWith a b = true) : b = a ++ b.drop a.length := by
  induction a generalizing b with
  | nil => simp
  | cons c cs ih =>
    cases b with
    | nil => simp [listStartsWith] at h
    | cons d ds =>
      simp only [listStartsWith, Bool.and_eq_true, decide_eq_true_eq] at h
      obtain ⟨rfl, h2⟩ := h
      simpa using ih h2

theorem lineBreaksToSpaces_data (s : String) :
    (lineBreaksToSpaces s).data = s.data.map (fun c => if isLineBreak c then ' ' else c) := rfl

theorem lineBreaksToSpaces_length (s : String) :
    (lineBreaksToSpaces s).length = s.length := by
  rw [string_length_eq_data, string_length_eq_data, lineBreaksToSpaces_data,
    List.length_map]

theorem lineBreaksToSpaces_eq_self {s : String} (h : noLineBreaks s = true) :
    lineBreaksToSpaces s = s := by
  cases s with
  | mk d =>
    simp only [noLineBreaks, List.all_eq_true] at h
    simp only [lineBreaksToSpaces]
    congr 1
    calc d.map (fun c => if isLineBreak c then ' ' else c)
        = d.map id := by
          apply List.map_congr_left
          intro c hc
          have := h c hc
          rw [Bool.not_eq_true'] at this
          simp [this]
      _ = d := List.map_id d

theorem lineBreaksToSpaces_append_nbsp_getLast (q : String) :
    (lineBreaksToSpaces (q ++ nbspStr)).data.getLast? = some nbsp := by
  have hd : (q ++ nbspStr).data = q.data ++ [nbsp] := rfl
  rw [lineBreaksToSpaces_data, hd, List.map_append]
  rw [List.getLast?_append_of_ne_nil _ (by simp)]
  have : isLineBreak nbsp = false := by decide
  simp [this]

theorem getLast_ne_nil_of_append {l : List Char} {suf : List Char} {pre : List Char}
    (hl : l = pre ++ suf) (hs : suf ≠ []) : l.getLast? = suf.getLast? := by
  subst hl
  exact List.getLast?_append_of_ne_nil pre hs

theorem comma_passthrough {oldText newText : String}
    (h : newText.data.getLast? = some nbsp) :
    getAutocompleteQueryWithComma oldText newText = newText := by
  unfold getAutocompleteQueryWithComma
  split
  · rfl
  · split
    · rfl
    · rename_i hne hsw
      rw [not_not] at hsw
      have hdec := listStartsWith_decompose hsw
      split
      · rfl
      · rename_i c rest hdrop
        split
        · rfl
        · split
          · rfl
          · split
            · rfl
            · rename_i hlast
              exfalso
              apply hlast
              rw [hdrop] at hdec
              rw [← getLast_ne_nil_of_append hdec (by simp)]
              exact h

theorem comma_length_ge (oldText newText : String) :
    newText.length ≤ (getAutocompleteQueryWithComma oldText newText).length := by
  unfold getAutocompleteQueryWithComma
  split
  · exact Nat.le_refl _
  · split
    · exact Nat.le_refl _
    · rename_i hne hsw
      rw [not_not] at hsw
      have hdec := listStartsWith_decompose hsw
      split
      · exact Nat.le_refl _
      · rename_i c rest hdrop
        split
        · exact Nat.le_refl _
        · split
          · exact Nat.le_refl _
          · split
            · exact Nat.le_refl _
            · rw [string_length_eq_data, string_length_eq_data]
              conv_lhs => rw [hdec, hdrop]
              simp [List.length_append]

theorem containsKey_eq_false_iff (m : SubstMap) (k : String) :
    containsKey m k = false ↔ lookupSubst m k = none := by
  induction m with
  | nil => simp [containsKey, lookupSubst]
  | cons kv rest ih =>
    by_cases h : kv.1 = k
    · simp [containsKey, lookupSubst, h]
    · simp [containsKey, lookupSubst, h, ih]

theorem mergeSubst_of_contains {m : SubstMap} {k : String} (v : String)
    (h : containsKey m k = true) :
    mergeSubst m k v = m.map (fun kv => if kv.1 = k then (k, v) else kv) := by
  simp [mergeSubst, h]

theorem mergeSubst_of_not_contains {m : SubstMap} {k : String} (v : String)
    (h : containsKey m k = false) : mergeSubst m k v = m ++ [(k, v)] := by
  simp [mergeSubst, h]

theorem map_overwrite_of_not_contains {m : SubstMap} {k : String} (v : String)
    (h : containsKey m k = false) :
    m.map (fun kv => if kv.1 = k then (k, v) else kv) = m := by
  induction m with
  | nil => rfl
  | cons kv rest ih =>
    simp only [containsKey, Bool.or_eq_false_iff, decide_eq_false_iff_not] at h
    simp [h.1, ih h.2]

theorem lookupSubst_append_of_not_contains {m : SubstMap} {k : String} (l : SubstMap)
    (h : containsKey m k = false) : lookupSubst (m ++ l) k = lookupSubst l k := by
  induction m with
  | nil => rfl
  | cons kv rest ih =>
    simp only [containsKey, Bool.or_eq_false_iff, decide_eq_false_iff_not] at h
    simp [lookupSubst, h.1, ih h.2]

theorem lookupSubst_merge_self (m : SubstMap) (k v : String) :
    lookupSubst (mergeSubst m k v) k = some v := by
  by_cases hc : containsKey m k = true
  · rw [mergeSubst_of_contains v hc]
    induction m with
    | nil => simp [containsKey] at hc
    | cons kv rest ih =>
      by_cases hk : kv.1 = k
      · simp [lookupSubst, hk]
      · simp only [containsKey, Bool.or_eq_true, decide_eq_true_eq, hk,
          false_or] at hc
        simp [lookupSubst, hk, ih hc]
  · have hc' : containsKey m k = false := by simpa using hc
    rw [mergeSubst_of_not_contains v hc',
      lookupSubst_append_of_not_contains _ hc']
    simp [lookupSubst]

theorem lookupSubst_map_overwrite_other {m : SubstMap} {k k2 : String} (v : String)
    (h : k2 ≠ k) :
    lookupSubst (m.map (fun kv => if kv.1 = k then (k, v) else kv)) k2 =
      lookupSubst m k2 := by
  induction m with
  | nil => rfl
  | cons kv rest ih =>
    by_cases hk : kv.1 = k
    · have hne : ¬ k = k2 := fun hh => h hh.symm
      have hne2 : ¬ kv.1 = k2 := by rw [hk]; exact hne
      rw [List.map_cons, if_pos hk]
      simp only [lookupSubst]
      rw [if_neg hne, if_neg hne2]
      exact ih
    · rw [List.map_cons, if_neg hk]
      by_cases hk2 : kv.1 = k2
      · simp [lookupSubst, hk2]
      · simp [lookupSubst, hk2, ih]

theorem lookupSubst_append_single_other {k v k2 : String} (m : SubstMap)
    (h : k2 ≠ k) : lookupSubst (m ++ [(k, v)]) k2 = lookupSubst m k2 := by
  induction m with
  | nil =>
    have hne : ¬ k = k2 := fun hh => h hh.symm
    simp [lookupSubst, hne]
  | cons kv rest ih =>
    by_cases hk2 : kv.1 = k2
    · simp [lookupSubst, hk2]
    · simp [lookupSubst, hk2, ih]

theorem lookupSubst_merge_other (m : SubstMap) (k v k2 : String) (h : k2 ≠ k) :
    lookupSubst (mergeSubst m k v) k2 = lookupSubst m k2 := by
  by_cases hc : containsKey m k = true
  · rw [mergeSubst_of_contains v hc]
    exact lookupSubst_map_overwrite_other v h
  · have hc' : containsKey m k = false := by simpa using hc
    rw [mergeSubst_of_not_contains v hc']
    exact lookupSubst_append_single_other m h

theorem containsKey_merge_self (m : SubstMap) (k v : String) :
    containsKey (mergeSubst m k v) k = true := by
  by_contra h
  have hf : containsKey (mergeSubst m k v) k = false := by simpa using h
  have := (containsKey_eq_false_iff _ _).mp hf
  rw [lookupSubst_merge_self] at this
  exact Option.noConfusion this

theorem mergeSubst_idem (m : SubstMap) (k v : String) :
    mergeSubst (mergeSubst m k v) k v = mergeSubst m k v := by
  rw [mergeSubst_of_contains v (containsKey_merge_self m k v)]
  by_cases hc : containsKey m k = true
  · rw [mergeSubst_of_contains v hc, List.map_map]
    apply List.map_congr_left
    intro kv _
    by_cases hk : kv.1 = k
    · simp [Function.comp, hk]
    · simp [Function.comp, hk]
  · have hc' : containsKey m k = false := by simpa using hc
    rw [mergeSubst_of_not_contains v hc', List.map_append,
      map_overwrite_of_not_contains v hc']
    simp

theorem mergeSubst_length_fresh (m : SubstMap) (k v : String)
    (h : lookupSubst m k = none) : (mergeSubst m k v).length = m.length + 1 := by
  have hc : containsKey m k = false := (containsKey_eq_false_iff m k).mpr h
  rw [mergeSubst_of_not_contains v hc]
  simp

theorem strReplaceAll_empty_text (pat repl : String) :
    strReplaceAll "" pat repl = "" := by
  unfold strReplaceAll
  split
  · rfl
  · rfl

theorem getQueryWithSubstitutions_empty (m : SubstMap) :
    getQueryWithSubstitutions "" m = "" := by
  unfold getQueryWithSubstitutions
  induction m with
  | nil => rfl
  | cons kv rest ih =>
    simp only [List.foldl_cons, strReplaceAll_empty_text]
    exact ih

/-- Claim C1, counterexample: a submission that does navigate (the
normalized query is nonempty) leaves the substitution map untouched, so
submitSearch does not reset the substitution map to empty as the claim
states.  The state sC1 holds one substitution entry; after a successful
submission the entry is still there. -/
theorem submitSearch_map_not_reset_counterexample :
    (submitSearch idNormalizer sC1 "foo").navEvents = ["foo"] ∧
    (submitSearch idNormalizer sC1 "foo").state.autocompleteSubstitutions =
      [("in:#general", "room_42")] := by
  constructor
  · decide
  · decide

/-- Claim C1, amended: for every normalizer, state and query whose
substituted and normalized form is nonempty, submitSearch resets the text
buffer and the autocomplete query value to empty and hands the canonical
query to the navigation collaborator exactly once; the substitution map
and the selection are left unchanged by submitSearch (the map is discarded
only when the router closes). -/
theorem submitSearch_success (normalize : String → String) (s : RouterState)
    (queryString : String)
    (h : normalize (getQueryWithSubstitutions queryString s.autocompleteSubstitutions) ≠ "") :
    (submitSearch normalize s queryString).state.textInputValue = "" ∧
    (submitSearch normalize s queryString).state.autocompleteQueryValue = "" ∧
    (submitSearch normalize s queryString).state.autocompleteSubstitutions =
      s.autocompleteSubstitutions ∧
    (submitSearch normalize s queryString).state.selection = s.selection ∧
    (submitSearch normalize s queryString).navEvents =
      [normalize (getQueryWithSubstitutions queryString s.autocompleteSubstitutions)] := by
  simp only [submitSearch]
  rw [if_neg h]
  exact ⟨rfl, rfl, rfl, rfl, rfl⟩

/-- Claim C1, witness: the amended theorem applied at a concrete state
with a nonempty normalized query. -/
theorem submitSearch_success_witness :
    idNormalizer (getQueryWithSubstitutions "foo" sC1.autocompleteSubstitutions) ≠ "" ∧
    ((submitSearch idNormalizer sC1 "foo").state.textInputValue = "" ∧
      (submitSearch idNormalizer sC1 "foo").state.autocompleteQueryValue = "" ∧
      (submitSearch idNormalizer sC1 "foo").state.autocompleteSubstitutions =
        sC1.autocompleteSubstitutions ∧
      (submitSearch idNormalizer sC1 "foo").state.selection = sC1.selection ∧
      (submitSearch idNormalizer sC1 "foo").navEvents =
        [idNormalizer (getQueryWithSubstitutions "foo" sC1.autocompleteSubstitutions)]) :=
  ⟨by decide, submitSearch_success idNormalizer sC1 "foo" (by decide)⟩

/-- Claim C2: when the substituted and normalized query is empty (the
falsy, no-usable-query case), submitSearch is a silent no-op: the state is
returned unchanged, no navigation event is emitted, and no error is
raised (the model of the callback is total). -/
theorem submitSearch_noop (normalize : String → String) (s : RouterState)
    (queryString : String)
    (h : normalize (getQueryWithSubstitutions queryString s.autocompleteSubstitutions) = "") :
    submitSearch normalize s queryString = { state := s, navEvents := [] } := by
  simp only [submitSearch]
  rw [if_pos h]

/-- Claim C2, witness: submitting the empty buffer of the initial state is
a no-op. -/
theorem submitSearch_noop_witness :
    idNormalizer (getQueryWithSubstitutions "" initialRouterState.autocompleteSubstitutions) = "" ∧
    submitSearch idNormalizer initialRouterState "" =
      { state := initialRouterState, navEvents := [] } :=
  ⟨by decide, submitSearch_noop idNormalizer initialRouterState "" (by decide)⟩

/-- Claim C3: submitting twice in a row with no focused option, for a
normalizer that yields no usable query on the empty buffer (as the spec
requires of the external normalizer), produces exactly one navigation
event: the first call clears the buffer, so the second call observes the
empty query and no-ops with the state unchanged. -/
theorem submit_twice_one_navigation (normalize : String → String) (s : RouterState)
    (h0 : normalize "" = "")
    (h1 : normalize (getQueryWithSubstitutions s.textInputValue s.autocompleteSubstitutions) ≠ "") :
    (onSubmitSearchInput normalize getUpdatedSubstitutionsMap s none).navEvents.length = 1 ∧
    (onSubmitSearchInput normalize getUpdatedSubstitutionsMap
      (onSubmitSearchInput normalize getUpdatedSubstitutionsMap s none).state none).state =
      (onSubmitSearchInput normalize getUpdatedSubstitutionsMap s none).state ∧
    (onSubmitSearchInput normalize getUpdatedSubstitutionsMap
      (onSubmitSearchInput normalize getUpdatedSubstitutionsMap s none).state none).navEvents =
      [] := by
  have hstep : onSubmitSearchInput normalize getUpdatedSubstitutionsMap s none =
      { state := { s with textInputValue := "", autocompleteQueryValue := "" },
        navEvents := [normalize (getQueryWithSubstitutions s.textInputValue s.autocompleteSubstitutions)] } := by
    simp only [onSubmitSearchInput, submitSearch]
    rw [if_neg h1]
  have hsecond : onSubmitSearchInput normalize getUpdatedSubstitutionsMap
      { s with textInputValue := "", autocompleteQueryValue := "" } none =
      { state := { s with textInputValue := "", autocompleteQueryValue := "" },
        navEvents := [] } := by
    simp [onSubmitSearchInput, submitSearch, getQueryWithSubstitutions_empty, h0]
  rw [hstep]
  rw [hsecond]
  exact ⟨rfl, rfl, rfl⟩

/-- Claim C3, witness: the double-submission theorem applied at a concrete
one-character buffer with the identity normalizer. -/
theorem submit_twice_one_navigation_witness :
    idNormalizer "" = "" ∧
    idNormalizer (getQueryWithSubstitutions sC3.textInputValue sC3.autocompleteSubstitutions) ≠ "" ∧
    (onSubmitSearchInput idNormalizer getUpdatedSubstitutionsMap sC3 none).navEvents.length = 1 :=
  ⟨by decide, by decide,
    (submit_twice_one_navigation idNormalizer sC3 (by decide) (by decide)).1⟩

theorem comma_empty_old (newText : String) :
    getAutocompleteQueryWithComma "" newText = newText := by
  simp [getAutocompleteQueryWithComma]

theorem string_length_append (a b : String) :
    (a ++ b).length = a.length + b.length := by
  rw [string_length_eq_data, string_length_eq_data, string_length_eq_data,
    string_append_data, List.length_append]

theorem string_ne_empty_of_getLast {s : String} {c : Char}
    (h : s.data.getLast? = some c) : s ≠ "" := by
  intro he
  subst he
  simp at h

theorem contextualPress_eq (normalize : String → String)
    (updSubs : String → SubstMap → SubstMap) (s : RouterState)
    (item : SearchQueryItem) (key : String)
    (hq : jsTruthyStr item.searchQuery = true)
    (htype : item.searchItemType = SearchItemType.contextualSuggestion)
    (hkey : getContextualSearchAutocompleteKey item = some key)
    (hid : jsTruthyStr item.autocompleteID = true) :
    onSearchQueryItemPress normalize updSubs s item =
      { state :=
          { textInputValue :=
              getAutocompleteQueryWithComma s.textInputValue
                (lineBreaksToSpaces (getContextualSearchQuery item ++ nbspStr))
            autocompleteQueryValue :=
              getAutocompleteQueryWithComma s.textInputValue
                (lineBreaksToSpaces (getContextualSearchQuery item ++ nbspStr))
            selection :=
              ((getContextualSearchQuery item ++ nbspStr).length,
                (getContextualSearchQuery item ++ nbspStr).length)
            autocompleteSubstitutions :=
              mergeSubst s.autocompleteSubstitutions key (item.autocompleteID.getD "") }
        navEvents := [] } := by
  simp only [onSearchQueryItemPress, onSearchQueryChange, hq, htype, hkey, hid,
    if_true, if_false]
  simp

theorem contextualPress_eq_nokey (normalize : String → String)
    (updSubs : String → SubstMap → SubstMap) (s : RouterState)
    (item : SearchQueryItem)
    (hq : jsTruthyStr item.searchQuery = true)
    (htype : item.searchItemType = SearchItemType.contextualSuggestion)
    (hkey : getContextualSearchAutocompleteKey item = none) :
    onSearchQueryItemPress normalize updSubs s item =
      { state :=
          { textInputValue :=
              getAutocompleteQueryWithComma s.textInputValue
                (lineBreaksToSpaces (getContextualSearchQuery item ++ nbspStr))
            autocompleteQueryValue :=
              getAutocompleteQueryWithComma s.textInputValue
                (lineBreaksToSpaces (getContextualSearchQuery item ++ nbspStr))
            selection :=
              ((getContextualSearchQuery item ++ nbspStr).length,
                (getContextualSearchQuery item ++ nbspStr).length)
            autocompleteSubstitutions :=
              if ¬ deepEqualSubst s.autocompleteSubstitutions
                  (updSubs (lineBreaksToSpaces (getContextualSearchQuery item ++ nbspStr))
                    s.autocompleteSubstitutions) then
                updSubs (lineBreaksToSpaces (getContextualSearchQuery item ++ nbspStr))
                  s.autocompleteSubstitutions
              else s.autocompleteSubstitutions }
        navEvents := [] } := by
  simp only [onSearchQueryItemPress, onSearchQueryChange, hq, htype, hkey,
    if_true, if_false]
  simp

theorem autocompletePress_eq (normalize : String → String)
    (updSubs : String → SubstMap → SubstMap) (s : RouterState)
    (item : SearchQueryItem)
    (hq : jsTruthyStr item.searchQuery = true)
    (htype : item.searchItemType = SearchItemType.autocompleteSuggestion)
    (hne : s.textInputValue ≠ "")
    (hk : jsTruthyStr item.mapKey = true)
    (hid : jsTruthyStr item.autocompleteID = true) :
    onSearchQueryItemPress normalize updSubs s item =
      { state :=
          { textInputValue :=
              getAutocompleteQueryWithComma s.textInputValue
                (lineBreaksToSpaces (getQueryWithoutAutocompletedPart s.textInputValue ++
                  sanitizeSearchValue (item.searchQuery.getD "") ++ nbspStr))
            autocompleteQueryValue :=
              getAutocompleteQueryWithComma s.textInputValue
                (lineBreaksToSpaces (getQueryWithoutAutocompletedPart s.textInputValue ++
                  sanitizeSearchValue (item.searchQuery.getD "") ++ nbspStr))
            selection :=
              ((getQueryWithoutAutocompletedPart s.textInputValue ++
                  sanitizeSearchValue (item.searchQuery.getD "") ++ nbspStr).length,
                (getQueryWithoutAutocompletedPart s.textInputValue ++
                  sanitizeSearchValue (item.searchQuery.getD "") ++ nbspStr).length)
            autocompleteSubstitutions :=
              mergeSubst s.autocompleteSubstitutions (item.mapKey.getD "")
                (item.autocompleteID.getD "") }
        navEvents := [] } := by
  simp only [onSearchQueryItemPress, onSearchQueryChange, hq, htype, hne, hk, hid,
    if_true, if_false]
  simp [hne]

/-- Claim C4, counterexample: a contextual suggestion for an expense room
carries an identifier (its policy id), is accepted from the empty buffer
(the buffer does become nonempty), and yet adds no key to the substitution
map, because no substitution key is derived for the expense room type; so
it is not the case that exactly one new key is added whenever the item
carries an identifier. -/
theorem contextual_expense_no_key_counterexample :
    itemC4x.searchItemType = SearchItemType.contextualSuggestion ∧
    jsTruthyStr itemC4x.autocompleteID = true ∧
    initialRouterState.textInputValue = "" ∧
    (onSearchQueryItemPress idNormalizer getUpdatedSubstitutionsMap
      initialRouterState itemC4x).state.textInputValue ≠ "" ∧
    (onSearchQueryItemPress idNormalizer getUpdatedSubstitutionsMap
      initialRouterState itemC4x).state.autocompleteSubstitutions = [] := by
  refine ⟨rfl, by decide, rfl, by decide, by decide⟩

/-- Claim C4, amended: accepting a contextual suggestion from an empty
buffer replaces the buffer with the synthesized contextual query followed
by the non-breaking-space delimiter (after line-break normalization), so
the buffer ends in the delimiter and is nonempty; the caret moves to the
end of the new text; and when a substitution key is derived from the item
room type (chat or invoice rooms only) and the item carries a truthy
identifier, the substitution map receives that key bound to the
identifier, which is one new entry whenever the key was not already
present. -/
theorem contextual_acceptance (normalize : String → String)
    (updSubs : String → SubstMap → SubstMap) (s : RouterState)
    (item : SearchQueryItem) (key : String)
    (hempty : s.textInputValue = "")
    (hq : jsTruthyStr item.searchQuery = true)
    (htype : item.searchItemType = SearchItemType.contextualSuggestion)
    (hkey : getContextualSearchAutocompleteKey item = some key)
    (hid : jsTruthyStr item.autocompleteID = true) :
    (onSearchQueryItemPress normalize updSubs s item).state.textInputValue =
      lineBreaksToSpaces (getContextualSearchQuery item ++ nbspStr) ∧
    (onSearchQueryItemPress normalize updSubs s item).state.textInputValue.data.getLast? =
      some nbsp ∧
    (onSearchQueryItemPress normalize updSubs s item).state.textInputValue ≠ "" ∧
    (onSearchQueryItemPress normalize updSubs s item).state.selection =
      ((onSearchQueryItemPress normalize updSubs s item).state.textInputValue.length,
        (onSearchQueryItemPress normalize updSubs s item).state.textInputValue.length) ∧
    (onSearchQueryItemPress normalize updSubs s item).state.autocompleteSubstitutions =
      mergeSubst s.autocompleteSubstitutions key (item.autocompleteID.getD "") ∧
    lookupSubst
      (onSearchQueryItemPress normalize updSubs s item).state.autocompleteSubstitutions
      key = some (item.autocompleteID.getD "") ∧
    (lookupSubst s.autocompleteSubstitutions key = none →
      (onSearchQueryItemPress normalize updSubs s item).state.autocompleteSubstitutions.length =
        s.autocompleteSubstitutions.length + 1) ∧
    (onSearchQueryItemPress normalize updSubs s item).navEvents = [] := by
  have hE := contextualPress_eq normalize updSubs s item key hq htype hkey hid
  refine ⟨?_, ?_, ?_, ?_, ?_, ?_, ?_, ?_⟩
  · simp only [hE, hempty, comma_empty_old]
  · simp only [hE, hempty, comma_empty_old]
    exact lineBreaksToSpaces_append_nbsp_getLast _
  · simp only [hE, hempty, comma_empty_old]
    exact string_ne_empty_of_getLast (lineBreaksToSpaces_append_nbsp_getLast _)
  · simp only [hE, hempty, comma_empty_old, lineBreaksToSpaces_length]
  · simp only [hE]
  · simp only [hE]
    exact lookupSubst_merge_self _ _ _
  · intro hfresh
    simp only [hE]
    exact mergeSubst_length_fresh _ _ _ hfresh
  · simp only [hE]

/-- Claim C4, witness: the amended theorem applied to a chat contextual
item accepted from the initial empty state. -/
theorem contextual_acceptance_witness :
    initialRouterState.textInputValue = "" ∧
    jsTruthyStr itemC4w.searchQuery = true ∧
    itemC4w.searchItemType = SearchItemType.contextualSuggestion ∧
    getContextualSearchAutocompleteKey itemC4w = some "in:general" ∧
    jsTruthyStr itemC4w.autocompleteID = true ∧
    (onSearchQueryItemPress idNormalizer getUpdatedSubstitutionsMap
      initialRouterState itemC4w).state.textInputValue.data.getLast? = some nbsp ∧
    (onSearchQueryItemPress idNormalizer getUpdatedSubstitutionsMap
      initialRouterState itemC4w).state.autocompleteSubstitutions =
      mergeSubst initialRouterState.autocompleteSubstitutions "in:general"
        (itemC4w.autocompleteID.getD "") :=
  ⟨rfl, by decide, rfl, by decide, by decide,
    (contextual_acceptance idNormalizer getUpdatedSubstitutionsMap initialRouterState
      itemC4w "in:general" rfl (by decide) rfl (by decide) (by decide)).2.1,
    (contextual_acceptance idNormalizer getUpdatedSubstitutionsMap initialRouterState
      itemC4w "in:general" rfl (by decide) rfl (by decide) (by decide)).2.2.2.2.1⟩

theorem all_reverse_eq (p : Char → Bool) (l : List Char) :
    l.reverse.all p = l.all p := by
  simp [List.all_eq_true]

theorem all_dropWhile_of_all {p q : Char → Bool} {l : List Char}
    (h : l.all p = true) : (l.dropWhile q).all p = true := by
  induction l with
  | nil => rfl
  | cons c cs ih =>
    simp only [List.all_cons, Bool.and_eq_true] at h
    rw [List.dropWhile_cons]
    split
    · exact ih h.2
    · simp [List.all_cons, h.1, h.2]

theorem noLineBreaks_append (a b : String) :
    noLineBreaks (a ++ b) = (noLineBreaks a && noLineBreaks b) := by
  simp [noLineBreaks, string_append_data, List.all_append]

theorem noLineBreaks_trimmed {s : String} (h : noLineBreaks s = true) :
    noLineBreaks (getQueryWithoutAutocompletedPart s) = true := by
  simp only [noLineBreaks, getQueryWithoutAutocompletedPart] at h ⊢
  rw [all_reverse_eq]
  apply all_dropWhile_of_all
  rw [all_reverse_eq]
  exact h

theorem noLineBreaks_sanitize {q : String} (h : noLineBreaks q = true) :
    noLineBreaks (sanitizeSearchValue q) = true := by
  unfold sanitizeSearchValue
  split
  · simp only [noLineBreaks] at h ⊢
    simp [List.all_cons, List.all_append, h, (by decide : isLineBreak '"' = false)]
  · exact h

/-- Claim C5: accepting an autocomplete suggestion while the buffer is
nonempty trims the already-typed partial fragment out of the buffer,
appends the sanitized fragment text followed by the non-breaking-space
delimiter, places the caret at the end of the new text, and merges the
item identifier into the substitution map under the item map key; the
hypotheses require a truthy fragment, map key and identifier (the claim
presupposes them) and line-break-free inputs (on which the line-break
normalization pass is the identity). -/
theorem autocomplete_acceptance (normalize : String → String)
    (updSubs : String → SubstMap → SubstMap) (s : RouterState)
    (item : SearchQueryItem)
    (hq : jsTruthyStr item.searchQuery = true)
    (htype : item.searchItemType = SearchItemType.autocompleteSuggestion)
    (hne : s.textInputValue ≠ "")
    (hk : jsTruthyStr item.mapKey = true)
    (hid : jsTruthyStr item.autocompleteID = true)
    (hnl1 : noLineBreaks s.textInputValue = true)
    (hnl2 : noLineBreaks (item.searchQuery.getD "") = true) :
    (onSearchQueryItemPress normalize updSubs s item).state.textInputValue =
      getQueryWithoutAutocompletedPart s.textInputValue ++
        sanitizeSearchValue (item.searchQuery.getD "") ++ nbspStr ∧
    (onSearchQueryItemPress normalize updSubs s item).state.textInputValue.data.getLast? =
      some nbsp ∧
    (onSearchQueryItemPress normalize updSubs s item).state.selection =
      ((onSearchQueryItemPress normalize updSubs s item).state.textInputValue.length,
        (onSearchQueryItemPress normalize updSubs s item).state.textInputValue.length) ∧
    (onSearchQueryItemPress normalize updSubs s item).state.autocompleteSubstitutions =
      mergeSubst s.autocompleteSubstitutions (item.mapKey.getD "")
        (item.autocompleteID.getD "") ∧
    lookupSubst
      (onSearchQueryItemPress normalize updSubs s item).state.autocompleteSubstitutions
      (item.mapKey.getD "") = some (item.autocompleteID.getD "") ∧
    (onSearchQueryItemPress normalize updSubs s item).navEvents = [] := by
  have hE := autocompletePress_eq normalize updSubs s item hq htype hne hk hid
  have hnlq : noLineBreaks (getQueryWithoutAutocompletedPart s.textInputValue ++
      sanitizeSearchValue (item.searchQuery.getD "") ++ nbspStr) = true := by
    rw [noLineBreaks_append, noLineBreaks_append, noLineBreaks_trimmed hnl1,
      noLineBreaks_sanitize hnl2]
    decide
  have hself := lineBreaksToSpaces_eq_self hnlq
  have hlast : (getQueryWithoutAutocompletedPart s.textInputValue ++
      sanitizeSearchValue (item.searchQuery.getD "") ++ nbspStr).data.getLast? =
      some nbsp := by
    rw [string_append_data,
      List.getLast?_append_of_ne_nil _ (by decide : nbspStr.data ≠ [])]
    rfl
  refine ⟨?_, ?_, ?_, ?_, ?_, ?_⟩
  · simp only [hE]
    rw [hself]
    exact comma_passthrough hlast
  · simp only [hE]
    rw [hself, comma_passthrough hlast]
    exact hlast
  · simp only [hE]
    rw [hself, comma_passthrough hlast]
  · simp only [hE]
  · simp only [hE]
    exact lookupSubst_merge_self _ _ _
  · simp only [hE]

/-- Claim C5, witness: end-to-end scenario A of the spec, with the
delimiter being the non-breaking space. -/
theorem autocomplete_acceptance_witness :
    jsTruthyStr itemC5.searchQuery = true ∧
    itemC5.searchItemType = SearchItemType.autocompleteSuggestion ∧
    sC5.textInputValue ≠ "" ∧
    jsTruthyStr itemC5.mapKey = true ∧
    jsTruthyStr itemC5.autocompleteID = true ∧
    noLineBreaks sC5.textInputValue = true ∧
    noLineBreaks (itemC5.searchQuery.getD "") = true ∧
    (onSearchQueryItemPress idNormalizer getUpdatedSubstitutionsMap sC5
      itemC5).state.textInputValue = "type:chat in:#general" ++ nbspStr ∧
    (onSearchQueryItemPress idNormalizer getUpdatedSubstitutionsMap sC5
      itemC5).state.autocompleteSubstitutions = [("in:#general", "room_42")] :=
  ⟨by decide, rfl, by decide, by decide, by decide, by decide, by decide,
    (autocomplete_acceptance idNormalizer getUpdatedSubstitutionsMap sC5 itemC5
      (by decide) rfl (by decide) (by decide) (by decide) (by decide)
      (by decide)).1.trans (by decide),
    (autocomplete_acceptance idNormalizer getUpdatedSubstitutionsMap sC5 itemC5
      (by decide) rfl (by decide) (by decide) (by decide) (by decide)
      (by decide)).2.2.2.1.trans (by decide)⟩

theorem length_le_comma_lineBreaks (old q : String) :
    q.length ≤ (getAutocompleteQueryWithComma old (lineBreaksToSpaces q)).length := by
  have h := comma_length_ge old (lineBreaksToSpaces q)
  rwa [lineBreaksToSpaces_length] at h

theorem contextualPress_eq_noid (normalize : String → String)
    (updSubs : String → SubstMap → SubstMap) (s : RouterState)
    (item : SearchQueryItem) (key : String)
    (hq : jsTruthyStr item.searchQuery = true)
    (htype : item.searchItemType = SearchItemType.contextualSuggestion)
    (hkey : getContextualSearchAutocompleteKey item = some key)
    (hid : jsTruthyStr item.autocompleteID = false) :
    onSearchQueryItemPress normalize updSubs s item =
      { state :=
          { textInputValue :=
              getAutocompleteQueryWithComma s.textInputValue
                (lineBreaksToSpaces (getContextualSearchQuery item ++ nbspStr))
            autocompleteQueryValue :=
              getAutocompleteQueryWithComma s.textInputValue
                (lineBreaksToSpaces (getContextualSearchQuery item ++ nbspStr))
            selection :=
              ((getContextualSearchQuery item ++ nbspStr).length,
                (getContextualSearchQuery item ++ nbspStr).length)
            autocompleteSubstitutions :=
              if ¬ deepEqualSubst s.autocompleteSubstitutions
                  (updSubs (lineBreaksToSpaces (getContextualSearchQuery item ++ nbspStr))
                    s.autocompleteSubstitutions) then
                updSubs (lineBreaksToSpaces (getContextualSearchQuery item ++ nbspStr))
                  s.autocompleteSubstitutions
              else s.autocompleteSubstitutions }
        navEvents := [] } := by
  simp only [onSearchQueryItemPress, onSearchQueryChange, hq, htype, hkey, hid,
    if_true, if_false]
  simp

theorem autocompletePress_eq_nomerge (normalize : String → String)
    (updSubs : String → SubstMap → SubstMap) (s : RouterState)
    (item : SearchQueryItem)
    (hq : jsTruthyStr item.searchQuery = true)
    (htype : item.searchItemType = SearchItemType.autocompleteSuggestion)
    (hne : s.textInputValue ≠ "")
    (hno : ¬ (jsTruthyStr item.mapKey = true ∧ jsTruthyStr item.autocompleteID = true)) :
    onSearchQueryItemPress normalize updSubs s item =
      { state :=
          { textInputValue :=
              getAutocompleteQueryWithComma s.textInputValue
                (lineBreaksToSpaces (getQueryWithoutAutocompletedPart s.textInputValue ++
                  sanitizeSearchValue (item.searchQuery.getD "") ++ nbspStr))
            autocompleteQueryValue :=
              getAutocompleteQueryWithComma s.textInputValue
                (lineBreaksToSpaces (getQueryWithoutAutocompletedPart s.textInputValue ++
                  sanitizeSearchValue (item.searchQuery.getD "") ++ nbspStr))
            selection :=
              ((getQueryWithoutAutocompletedPart s.textInputValue ++
                  sanitizeSearchValue (item.searchQuery.getD "") ++ nbspStr).length,
                (getQueryWithoutAutocompletedPart s.textInputValue ++
                  sanitizeSearchValue (item.searchQuery.getD "") ++ nbspStr).length)
            autocompleteSubstitutions :=
              if ¬ deepEqualSubst s.autocompleteSubstitutions
                  (updSubs
                    (lineBreaksToSpaces (getQueryWithoutAutocompletedPart s.textInputValue ++
                      sanitizeSearchValue (item.searchQuery.getD "") ++ nbspStr))
                    s.autocompleteSubstitutions) then
                updSubs
                  (lineBreaksToSpaces (getQueryWithoutAutocompletedPart s.textInputValue ++
                    sanitizeSearchValue (item.searchQuery.getD "") ++ nbspStr))
                  s.autocompleteSubstitutions
              else s.autocompleteSubstitutions }
        navEvents := [] } := by
  simp only [onSearchQueryItemPress, onSearchQueryChange, hq, htype, hne, hno,
    if_true, if_false]
  simp [hne, hno]

theorem contextualPress_selection_text (normalize : String → String)
    (updSubs : String → SubstMap → SubstMap) (s : RouterState)
    (item : SearchQueryItem)
    (hq : jsTruthyStr item.searchQuery = true)
    (htype : item.searchItemType = SearchItemType.contextualSuggestion) :
    (onSearchQueryItemPress normalize updSubs s item).state.textInputValue =
      getAutocompleteQueryWithComma s.textInputValue
        (lineBreaksToSpaces (getContextualSearchQuery item ++ nbspStr)) ∧
    (onSearchQueryItemPress normalize updSubs s item).state.selection =
      ((getContextualSearchQuery item ++ nbspStr).length,
        (getContextualSearchQuery item ++ nbspStr).length) := by
  cases hkey : getContextualSearchAutocompleteKey item with
  | none =>
    rw [contextualPress_eq_nokey normalize updSubs s item hq htype hkey]
    exact ⟨rfl, rfl⟩
  | some key =>
    by_cases hid : jsTruthyStr item.autocompleteID = true
    · rw [contextualPress_eq normalize updSubs s item key hq htype hkey hid]
      exact ⟨rfl, rfl⟩
    · have hid' : jsTruthyStr item.autocompleteID = false := by
        simpa using hid
      rw [contextualPress_eq_noid normalize updSubs s item key hq htype hkey hid']
      exact ⟨rfl, rfl⟩

theorem autocompletePress_selection_text (normalize : String → String)
    (updSubs : String → SubstMap → SubstMap) (s : RouterState)
    (item : SearchQueryItem)
    (hq : jsTruthyStr item.searchQuery = true)
    (htype : item.searchItemType = SearchItemType.autocompleteSuggestion)
    (hne : s.textInputValue ≠ "") :
    (onSearchQueryItemPress normalize updSubs s item).state.textInputValue =
      getAutocompleteQueryWithComma s.textInputValue
        (lineBreaksToSpaces (getQueryWithoutAutocompletedPart s.textInputValue ++
          sanitizeSearchValue (item.searchQuery.getD "") ++ nbspStr)) ∧
    (onSearchQueryItemPress normalize updSubs s item).state.selection =
      ((getQueryWithoutAutocompletedPart s.textInputValue ++
          sanitizeSearchValue (item.searchQuery.getD "") ++ nbspStr).length,
        (getQueryWithoutAutocompletedPart s.textInputValue ++
          sanitizeSearchValue (item.searchQuery.getD "") ++ nbspStr).length) := by
  by_cases hcond : jsTruthyStr item.mapKey = true ∧ jsTruthyStr item.autocompleteID = true
  · rw [autocompletePress_eq normalize updSubs s item hq htype hne hcond.1 hcond.2]
    exact ⟨rfl, rfl⟩
  · rw [autocompletePress_eq_nomerge normalize updSubs s item hq htype hne hcond]
    exact ⟨rfl, rfl⟩

/-- Claim C6, counterexample: the selection setter of the source is the
raw useState setter; it stores an out-of-range range verbatim instead of
clamping it to the bounds of the current text: on the empty initial text
the range (5, 7) is accepted as-is and violates end less-or-equal
length. -/
theorem setSelection_no_clamp_counterexample :
    (setSelectionRaw initialRouterState (5, 7)).selection = (5, 7) ∧
    ¬ selInv (setSelectionRaw initialRouterState (5, 7)) := by
  constructor
  · rfl
  · intro h
    have := h.2
    revert this
    decide

/-- Claim C6, amended: setSelection stores the given range verbatim, with
no clamping; the selection invariant (ordered range within the text)
nevertheless holds after every selection-setting state update performed by
the component - the initial state, a programmatic text replacement, and
both suggestion-acceptance paths - because each places the caret at the
end of a text at least as long as the position stored. -/
theorem selection_invariant_amended :
    (∀ (s : RouterState) (r : Nat × Nat), (setSelectionRaw s r).selection = r) ∧
    selInv initialRouterState ∧
    (∀ (s : RouterState) (t : String), selInv (setTextAndUpdateSelection s t)) ∧
    (∀ (normalize : String → String) (updSubs : String → SubstMap → SubstMap)
      (s : RouterState) (item : SearchQueryItem),
      jsTruthyStr item.searchQuery = true →
      item.searchItemType = SearchItemType.contextualSuggestion →
      selInv (onSearchQueryItemPress normalize updSubs s item).state) ∧
    (∀ (normalize : String → String) (updSubs : String → SubstMap → SubstMap)
      (s : RouterState) (item : SearchQueryItem),
      jsTruthyStr item.searchQuery = true →
      item.searchItemType = SearchItemType.autocompleteSuggestion →
      s.textInputValue ≠ "" →
      selInv (onSearchQueryItemPress normalize updSubs s item).state) := by
  refine ⟨fun s r => rfl, ⟨Nat.le_refl 0, Nat.le_refl 0⟩, ?_, ?_, ?_⟩
  · intro s t
    exact ⟨Nat.le_refl _, Nat.le_refl _⟩
  · intro normalize updSubs s item hq htype
    obtain ⟨htext, hsel⟩ :=
      contextualPress_selection_text normalize updSubs s item hq htype
    constructor
    · rw [hsel]
    · rw [hsel, htext]
      exact length_le_comma_lineBreaks _ _
  · intro normalize updSubs s item hq htype hne
    obtain ⟨htext, hsel⟩ :=
      autocompletePress_selection_text normalize updSubs s item hq htype hne
    constructor
    · rw [hsel]
    · rw [hsel, htext]
      exact length_le_comma_lineBreaks _ _

/-- Claim C6, witness: the amended theorem evaluated at concrete inputs
for each selection-setting operation. -/
theorem selection_invariant_amended_witness :
    (setSelectionRaw initialRouterState (2, 3)).selection = (2, 3) ∧
    selInv (setTextAndUpdateSelection initialRouterState "ab") ∧
    (jsTruthyStr itemC6.searchQuery = true ∧
      itemC6.searchItemType = SearchItemType.contextualSuggestion ∧
      selInv (onSearchQueryItemPress idNormalizer getUpdatedSubstitutionsMap
        initialRouterState itemC6).state) ∧
    (jsTruthyStr itemC6a.searchQuery = true ∧
      itemC6a.searchItemType = SearchItemType.autocompleteSuggestion ∧
      sC5.textInputValue ≠ "" ∧
      selInv (onSearchQueryItemPress idNormalizer getUpdatedSubstitutionsMap
        sC5 itemC6a).state) :=
  ⟨selection_invariant_amended.1 initialRouterState (2, 3),
    selection_invariant_amended.2.2.1 initialRouterState "ab",
    ⟨by decide, rfl,
      selection_invariant_amended.2.2.2.1 idNormalizer getUpdatedSubstitutionsMap
        initialRouterState itemC6 (by decide) rfl⟩,
    ⟨by decide, rfl, by decide,
      selection_invariant_amended.2.2.2.2 idNormalizer getUpdatedSubstitutionsMap
        sC5 itemC6a (by decide) rfl (by decide)⟩⟩

/-- Claim C7, counterexample: updateAutocompleteSubstitutions has no
structural-equality guard: merging the binding of k to v into a map that
already holds exactly that binding yields a structurally equal (indeed
identical) map, yet a set-state transition is still emitted. -/
theorem merge_emits_on_equal_counterexample :
    deepEqualSubst sC7.autocompleteSubstitutions
      (updateAutocompleteSubstitutions sC7 itemC7).1.autocompleteSubstitutions = true ∧
    (updateAutocompleteSubstitutions sC7 itemC7).1.autocompleteSubstitutions =
      sC7.autocompleteSubstitutions ∧
    (updateAutocompleteSubstitutions sC7 itemC7).2 = true := by
  refine ⟨by decide, by decide, by decide⟩

/-- Claim C7, amended: merging is a pure map operation - the merged map
binds the key to the identifier, leaves every other key unchanged, and
merging an identical pair twice yields an equal map (so structural
equality holds, no spurious difference); the keystroke path emits a
substitution-map transition exactly when the updated map is not
structurally equal to the previous one (the deepEqual guard); but
updateAutocompleteSubstitutions emits a set-state call whenever the item
has a truthy map key and identifier, even when the merged map is
structurally equal to the previous one. -/
theorem merge_purity_and_transitions :
    (∀ (m : SubstMap) (k v : String), lookupSubst (mergeSubst m k v) k = some v) ∧
    (∀ (m : SubstMap) (k v k2 : String), k2 ≠ k →
      lookupSubst (mergeSubst m k v) k2 = lookupSubst m k2) ∧
    (∀ (m : SubstMap) (k v : String),
      mergeSubst (mergeSubst m k v) k v = mergeSubst m k v) ∧
    (∀ (updSubs : String → SubstMap → SubstMap) (s : RouterState) (q : String),
      (onSearchQueryChange updSubs s q).2 = true ↔
        deepEqualSubst s.autocompleteSubstitutions
          (updSubs (lineBreaksToSpaces q) s.autocompleteSubstitutions) = false) ∧
    (∀ (s : RouterState) (item : SearchQueryItem),
      jsTruthyStr item.mapKey = true → jsTruthyStr item.autocompleteID = true →
      (updateAutocompleteSubstitutions s item).2 = true) := by
  refine ⟨lookupSubst_merge_self, lookupSubst_merge_other, mergeSubst_idem, ?_, ?_⟩
  · intro updSubs s q
    simp [onSearchQueryChange]
  · intro s item hk hid
    simp [updateAutocompleteSubstitutions, hk, hid]

/-- Claim C7, witness: the amended theorem applied at concrete maps, keys
and the concrete always-emitting update. -/
theorem merge_purity_and_transitions_witness :
    lookupSubst (mergeSubst [] "k" "v") "k" = some "v" ∧
    ("a" : String) ≠ "k" ∧
    lookupSubst (mergeSubst [] "k" "v") "a" = lookupSubst ([] : SubstMap) "a" ∧
    mergeSubst (mergeSubst [] "k" "v") "k" "v" = mergeSubst [] "k" "v" ∧
    jsTruthyStr itemC7.mapKey = true ∧
    jsTruthyStr itemC7.autocompleteID = true ∧
    (updateAutocompleteSubstitutions sC7 itemC7).2 = true :=
  ⟨merge_purity_and_transitions.1 [] "k" "v", by decide,
    merge_purity_and_transitions.2.1 [] "k" "v" "a" (by decide),
    merge_purity_and_transitions.2.2.1 [] "k" "v",
    by decide, by decide,
    merge_purity_and_transitions.2.2.2.2 sC7 itemC7 (by decide) (by decide)⟩

/-- Claim C8, counterexample: an exception thrown inside the deferred
focus-and-scroll step of a suggestion selection is caught and logged but
not re-raised - the boundary resolves successfully - and its log record
carries neither the elapsed duration nor any input-length context. -/
theorem focus_scroll_swallows_counterexample :
    setFocusAndScrollToRightBoundary (Except.error "boom") =
      ([focusScrollAlertLog], Except.ok ()) ∧
    focusScrollAlertLog.hasDuration = false ∧
    focusScrollAlertLog.hasInputLength = false :=
  ⟨rfl, rfl, rfl⟩

/-- Claim C8, amended: exceptions in keystroke processing are caught,
logged with action identifier, elapsed duration and input length, and
re-raised; exceptions in the suggestion-selection handler are caught,
logged with action identifier and elapsed duration (item-kind context, no
input length), and re-raised; but exceptions in the deferred
focus-and-scroll step are caught and logged (action identifier only,
neither duration nor input length) without being re-raised; successful
bodies pass through every boundary with no alert. -/
theorem error_boundaries_amended :
    (∀ e : String, onSearchQueryChangeBoundary (Except.error e) =
      ([keystrokeAlertLog], Except.error e)) ∧
    keystrokeAlertLog.hasActionId = true ∧
    keystrokeAlertLog.hasDuration = true ∧
    keystrokeAlertLog.hasInputLength = true ∧
    (∀ e : String, onListItemPressBoundary (Except.error e) =
      ([listItemPressAlertLog], Except.error e)) ∧
    listItemPressAlertLog.hasActionId = true ∧
    listItemPressAlertLog.hasDuration = true ∧
    listItemPressAlertLog.hasInputLength = false ∧
    (∀ e : String, setFocusAndScrollToRightBoundary (Except.error e) =
      ([focusScrollAlertLog], Except.ok ())) ∧
    (∀ u : Unit, onSearchQueryChangeBoundary (Except.ok u) = ([], Except.ok u) ∧
      onListItemPressBoundary (Except.ok u) = ([], Except.ok u) ∧
      setFocusAndScrollToRightBoundary (Except.ok u) = ([], Except.ok u)) :=
  ⟨fun _ => rfl, rfl, rfl, rfl, fun _ => rfl, rfl, rfl, rfl, fun _ => rfl,
    fun _ => ⟨rfl, rfl, rfl⟩⟩

/-- Claim C9: submitting the edit-value form invokes the rename action,
with the edited index and the trimmed value, exactly when the trimmed new
value differs from the current value at the edited index; the keyboard is
dismissed and navigation goes back on every submission regardless. -/
theorem editValue_spec :
    (∀ (listValues : Option (List String)) (valueIndex : Nat) (v : String),
      (editValue (currentValueName listValues valueIndex) valueIndex
          (some v)).renameCall =
        (if jsTrim v = currentValueName listValues valueIndex then none
          else some (valueIndex, some (jsTrim v)))) ∧
    (∀ (currentName : String) (valueIndex : Nat) (newValueField : Option String),
      (editValue currentName valueIndex newValueField).keyboardDismissed = true ∧
      (editValue currentName valueIndex newValueField).navigatedBack = true) := by
  constructor
  · intro lv i v
    by_cases h : jsTrim v = currentValueName lv i
    · simp [editValue, h]
    · have h2 : some (currentValueName lv i) ≠ some (jsTrim v) := by
        intro hh
        exact h (Option.some.inj hh).symm
      simp [editValue, h2, h]
  · intro c i nv
    exact ⟨rfl, rfl⟩

/-- Claim C10, counterexample: an explicitly provided tabIndex of zero is
falsy, so the forwarded tabIndex is zero, the provided value verbatim, and
a provided minus one is truthy and forwarded as minus one; hence it is not
the case that an explicitly provided tabIndex value is never forwarded
verbatim. -/
theorem tabIndex_verbatim_counterexample :
    webTabIndex (some 0) none none = 0 ∧
    webTabIndex (some (-1)) none none = -1 := by
  refine ⟨by decide, by decide⟩

/-- Claim C10, amended: the forwarded tabIndex is always zero or minus
one; it is minus one exactly when the nullish coalescing of the tabIndex
prop with the negated accessibility flags is truthy, and zero otherwise;
consequently a provided tabIndex other than zero and minus one (for
example five) is never forwarded verbatim; and accessible defaults to true
when the prop is undefined. -/
theorem webTabIndex_spec :
    (∀ (t : Option Int) (a f : Option Bool),
      webTabIndex t a f = -1 ∨ webTabIndex t a f = 0) ∧
    (∀ (t : Option Int) (a f : Option Bool),
      webTabIndex t a f = -1 ↔
        tabIndexCoalesced t (webAccessible a) (f.getD true) = true) ∧
    (∀ (a f : Option Bool), webTabIndex (some 5) a f = -1) ∧
    webAccessible none = true ∧
    (∀ (n : Int) (a f : Option Bool), n ≠ 0 → n ≠ -1 →
      webTabIndex (some n) a f ≠ n) := by
  refine ⟨?_, ?_, ?_, rfl, ?_⟩
  · intro t a f
    simp only [webTabIndex]
    split
    · exact Or.inl rfl
    · exact Or.inr rfl
  · intro t a f
    simp only [webTabIndex, tabIndexCoalesced]
    split
    · rename_i h
      exact ⟨fun _ => h, fun _ => rfl⟩
    · rename_i h
      constructor
      · intro hh
        exact absurd hh (by decide)
      · intro hh
        exact absurd hh h
  · intro a f
    rfl
  · intro n a f hn hn1
    simp only [webTabIndex]
    rw [if_pos (by simp [hn])]
    intro hh
    exact hn1 hh.symm

/-- Claim C10, witness: the amended theorem applied at the value five of
the claim. -/
theorem webTabIndex_spec_witness :
    ((5 : Int) ≠ 0) ∧ ((5 : Int) ≠ -1) ∧ webTabIndex (some 5) none none ≠ 5 :=
  ⟨by decide, by decide,
    webTabIndex_spec.2.2.2.2 5 none none (by decide) (by decide)⟩
